import Mathlib

/-!
Shallow embedding of `macdrop.py`, a command-line wrapper that manages a
single docker-in-docker development container.  The script reads a flat set
of environment variables, selects a container runtime, builds argument
lists for the runtime's CLI, and dispatches one of five actions
(start / stop / shell / l3d / container-reset).

The embedding models:
  * the environment as a partial map from variable names to strings;
  * the host (executable lookup, path existence, directory test, home
    directory, current working directory, and the exit codes returned by
    external invocations) as an oracle record;
  * each action as a pure function returning the list of external
    invocations issued, the process exit code, and the diagnostics printed
    to stderr;
  * the bounded-retry executor as a function producing a trace of events
    (attempts, sleeps, warnings).

Python strings are modelled by Lean `String`; `len` and slicing operate on
code points on both sides (`String.data : List Char`).
-/

namespace Macdrop

/-- The process environment: a partial map from variable names to values,
as read by `os.environ.get`. -/
abbrev Env := String → Option String

/-- Host-system oracle: `which` models `shutil.which` (presence on the
search path), `pathExists` models `os.path.exists`, `isDir` models
`os.path.isdir`, `home` is the user's home directory used by
`os.path.expanduser`, `cwd` is `os.getcwd()`, `run` gives the exit code of
a one-shot external invocation, and `runAt` gives the exit code of an
invocation at a given (0-based) retry attempt. -/
structure Host where
  which : String → Bool
  pathExists : String → Bool
  isDir : String → Bool
  home : String
  cwd : String
  run : List String → Int
  runAt : List String → Nat → Int

/-- `os.environ.get(key, dflt)`. -/
def getenvD (env : Env) (key dflt : String) : String :=
  (env key).getD dflt

/-- `NAME = os.environ.get("MACDROP_NAME", "macdrop")`. -/
def NAME (env : Env) : String := getenvD env "MACDROP_NAME" "macdrop"

/-- `IMAGE = os.environ.get("MACDROP_IMAGE", "docker:29-dind")`. -/
def IMAGE (env : Env) : String := getenvD env "MACDROP_IMAGE" "docker:29-dind"

/-- `PLATFORM = os.environ.get("MACDROP_PLATFORM", "linux/amd64")`. -/
def PLATFORM (env : Env) : String := getenvD env "MACDROP_PLATFORM" "linux/amd64"

/-- `PORT = os.environ.get("MACDROP_PORT", "8000:8000")`. -/
def PORT (env : Env) : String := getenvD env "MACDROP_PORT" "8000:8000"

/-- `CACHEVOLUME = os.environ.get("MACDROP_CACHEVOLUME", "macdropcache")`. -/
def CACHEVOLUME (env : Env) : String := getenvD env "MACDROP_CACHEVOLUME" "macdropcache"

/-- `SETUPVERSION = os.environ.get("MACDROP_SETUPVERSION", ...)`. -/
def SETUPVERSION (env : Env) : String :=
  getenvD env "MACDROP_SETUPVERSION" "registry.lakedrops.com/docker/l3d/setup:latest"

/-- Python `s.startswith(pre)` (by code points). -/
def startswith (s pre : String) : Bool := pre.data.isPrefixOf s.data

/-- Python `len(s)` (number of code points). -/
def pyLen (s : String) : Nat := s.data.length

/-- Python `s[n:]` (slice by code points). -/
def pyDrop (s : String) (n : Nat) : String := ⟨s.data.drop n⟩

/-- `find_runtime()`: probe `("container", "docker", "podman")` in order,
returning the first executable found on the search path, else `None`. -/
def find_runtime (which : String → Bool) : Option String :=
  if which "container" then some "container"
  else if which "docker" then some "docker"
  else if which "podman" then some "podman"
  else none

/-- `os.environ.get("MACDROP_RUNTIME", find_runtime())`: the explicit
override, when the variable is set (to any string, empty included), else
the probed runtime. -/
def selectRuntime (env : Env) (which : String → Bool) : Option String :=
  match env "MACDROP_RUNTIME" with
  | some v => some v
  | none => find_runtime which

/-- Result of `base_run_command`: the side-effect invocations issued while
building the command (`runtime volume create ...` when a cache volume is
configured), and the built `run` argument list. -/
structure RunCmdResult where
  pre : List (List String)
  cmd : List String
deriving DecidableEq

/-- `base_run_command(runtime)`: builds the container-creation argument list.
Appends `--privileged` for docker/podman, the SSH-agent env/bind-mount
pair when `SSH_AUTH_SOCK` is set, non-empty and the path exists, the
`~/Projects` bind mount and workdir when that directory exists, and the
cache-volume mount (after a `volume create` side invocation) when the
cache-volume name is non-empty. -/
def base_run_command (env : Env) (host : Host) (runtime : String) : RunCmdResult :=
  let cmd0 := [runtime, "run", "-d", "--name", NAME env,
               "--platform", PLATFORM env, "-p", PORT env]
  let cmd1 := if runtime = "docker" ∨ runtime = "podman" then cmd0 ++ ["--privileged"] else cmd0
  let cmd2 :=
    match env "SSH_AUTH_SOCK" with
    | none => cmd1
    | some s =>
      if s ≠ "" ∧ host.pathExists s then
        cmd1 ++ ["-e", "SSH_AUTH_SOCK=/ssh-agent", "-v", s ++ ":/ssh-agent"]
      else cmd1
  let homeProjects := host.home ++ "/Projects"
  let cmd3 :=
    if host.isDir homeProjects then
      cmd2 ++ ["-v", homeProjects ++ ":/Projects", "-w", "/Projects"]
    else cmd2
  let pre :=
    if 0 < pyLen (CACHEVOLUME env) then [[runtime, "volume", "create", CACHEVOLUME env]] else []
  let cmd4 :=
    if 0 < pyLen (CACHEVOLUME env) then
      cmd3 ++ ["-v", CACHEVOLUME env ++ ":/var/lib/docker"]
    else cmd3
  ⟨pre, cmd4⟩

/-- The composed provisioning shell command of `run_setup`. -/
def setupCmdStr (env : Env) : String :=
  "apk add bash sudo tzdata ; cp /usr/share/zoneinfo/UTC /etc/localtime ; touch /etc/timezone ; until docker info >/dev/null 2>&1; do echo \x27Waiting for Docker...\x27; sleep 2; done; docker network create traefik-public ; docker run -v /usr/local/bin:/setup --rm "
    ++ SETUPVERSION env

/-- The `run_setup` invocation: `runtime exec -it NAME /bin/sh -c <setup>`. -/
def run_setup_cmd (env : Env) (runtime : String) : List String :=
  [runtime, "exec", "-it", NAME env, "/bin/sh", "-c", setupCmdStr env]

/-- Observable outcome of one program run: external invocations issued in
order, the process exit code, and stderr diagnostics. -/
structure ProgResult where
  invocations : List (List String)
  exitCode : Int
  errors : List String
deriving DecidableEq

/-- `start(runtime)`: issue the creation invocation (preceded by the
cache-volume `volume create` side invocation when configured); on non-zero
exit print a diagnostic and exit with that code; otherwise run the
provisioning invocation (`check_call`: a non-zero exit raises an uncaught
`CalledProcessError`, terminating the interpreter with code 1). -/
def start (env : Env) (host : Host) (runtime : String) : ProgResult :=
  let b := base_run_command env host runtime
  let create := b.cmd ++ [IMAGE env]
  let rc := host.run create
  if rc ≠ 0 then
    ⟨b.pre ++ [create], rc,
     ["Failed to start container \x27" ++ NAME env ++ "\x27 using " ++ runtime ++ "."]⟩
  else
    let setup := run_setup_cmd env runtime
    let rc2 := host.run setup
    if rc2 ≠ 0 then ⟨b.pre ++ [create, setup], 1, ["subprocess.CalledProcessError"]⟩
    else ⟨b.pre ++ [create, setup], 0, []⟩

/-- `stop(runtime)`: force-remove the named container with `check=False`
(the invocation's exit code is ignored); `main` then returns normally, so
the process exits 0. -/
def stop (env : Env) (host : Host) (runtime : String) : ProgResult :=
  let c := [runtime, "rm", "-f", NAME env]
  let _ := host.run c
  ⟨[c], 0, []⟩

/-- `shell(runtime, cmdparam)`: exec into the container, then
`sys.exit(proc.returncode)` propagates the inner exit code. -/
def shell (env : Env) (host : Host) (runtime : String) (cmdparam : List String) : ProgResult :=
  let c := [runtime, "exec", "-it", NAME env] ++ cmdparam
  ⟨[c], host.run c, []⟩

/-- `l3d(runtime, args)`: require the current working directory to start
with the expanded `~/Projects` (else print the diagnostic and exit 1);
translate it to the in-container path by replacing that prefix with
`/Projects`, compose `cd <dir> && l3d [args...]`, and delegate to the
shell action. -/
def l3d (env : Env) (host : Host) (runtime : String) (args : List String) : ProgResult :=
  let homeProjects := host.home ++ "/Projects"
  let cwd := host.cwd
  if startswith cwd homeProjects then
    let containerDir := "/Projects" ++ pyDrop cwd (pyLen homeProjects)
    let base := "cd \x27" ++ containerDir ++ "\x27 && l3d"
    let cmdstr := if args.isEmpty then base else base ++ " " ++ String.intercalate " " args
    shell env host runtime ["/bin/sh", "-c", cmdstr]
  else
    ⟨[], 1, ["Error: You must run this command inside a project under ~/Projects."]⟩

/-- Events produced by the bounded-retry executor: an attempt of a command
(0-based attempt index), a sleep of the configured delay, or a warning
that a command failed after all attempts. -/
inductive Event where
  | attempt (cmd : List String) (idx : Nat)
  | sleep (d : Nat)
  | warn (cmd : List String)
deriving DecidableEq

/-- Retry loop for one command in `run_commands_with_retry`: `i` is the
current attempt index, the second argument the number of attempts still
allowed (called with `retries + 1`).  On failure of the last allowed
attempt a warning is emitted; otherwise the loop sleeps and retries. -/
def tryLoop (exec : Nat → Bool) (delay : Nat) (cmd : List String) : Nat → Nat → List Event
  | _, 0 => []
  | i, left + 1 =>
    Event.attempt cmd i ::
      (if exec i then []
       else
         match left with
         | 0 => [Event.warn cmd]
         | l + 1 => Event.sleep delay :: tryLoop exec delay cmd (i + 1) (l + 1))

/-- `run_commands_with_retry(commands, retries, delay)`: process the
commands in order; each command is attempted up to `retries + 1` times,
and after exhausting its retries the executor continues with the next
command.  `exec c n` tells whether command `c` succeeds on attempt `n`. -/
def run_commands_with_retry (exec : List String → Nat → Bool)
    (commands : List (List String)) (retries delay : Nat) : List Event :=
  match commands with
  | [] => []
  | c :: rest => tryLoop (exec c) delay c 0 (retries + 1) ++ run_commands_with_retry exec rest retries delay

/-- The fixed command list of `container_reset`. -/
def resetCommands : List (List String) :=
  [["container", "system", "stop"],
   ["container", "system", "start"],
   ["container", "rm", "-f", "--all"]]

/-- The commands attempted in a retry-event trace, in order. -/
def eventInvocations (evs : List Event) : List (List String) :=
  evs.filterMap fun e =>
    match e with
    | Event.attempt c _ => some c
    | _ => none

/-- The warnings printed in a retry-event trace, in order. -/
def eventWarnings (retries : Nat) (evs : List Event) : List String :=
  evs.filterMap fun e =>
    match e with
    | Event.warn c =>
      some ("Command failed after " ++ toString (retries + 1) ++ " attempts, continuing: "
            ++ String.intercalate " " c)
    | _ => none

/-- `container_reset(runtime)`: exit 1 unless the runtime is `container`,
else run the fixed reset command list through the bounded-retry executor
(retries 2, delay 1) and exit 0. -/
def container_reset (exec : List String → Nat → Bool) (runtime : String) : ProgResult :=
  if runtime ≠ "container" then
    ⟨[], 1, ["container-reset is only supported when runtime=container"]⟩
  else
    let evs := run_commands_with_retry exec resetCommands 2 1
    ⟨eventInvocations evs, 0, eventWarnings 2 evs⟩

/-- The five dispatchable actions of `main`. -/
inductive Action where
  | start
  | stop
  | shell
  | l3d
  | reset
deriving DecidableEq

/-- `main()`: resolve the runtime (override first, else probe); a missing
or falsy (empty) runtime is fatal with exit 1 and the diagnostic, before
any action is dispatched; otherwise dispatch the requested action.  The
shell action is dispatched with the literal command vector `["sh"]`. -/
def mainRun (env : Env) (host : Host) (action : Action) (args : List String) : ProgResult :=
  match selectRuntime env host.which with
  | none => ⟨[], 1, ["Error: No container runtime found"]⟩
  | some rt =>
    if rt = "" then ⟨[], 1, ["Error: No container runtime found"]⟩
    else
      match action with
      | Action.start => start env host rt
      | Action.stop => stop env host rt
      | Action.shell => shell env host rt ["sh"]
      | Action.l3d => l3d env host rt args
      | Action.reset => container_reset (fun c n => host.runAt c n == 0) rt

/-- Modelled from the spec: a directory `p` lies under a project root
`root` when it is the root itself or a path inside the root's subtree.
Used only to compare the spec's "under the project root" with the
string-prefix test the code performs. -/
def underDir (root p : String) : Bool := p = root || startswith p (root ++ "/")

/-- The program token the shell action executes inside the container: the
last token of the first (only) invocation issued by `main` on the shell
action. -/
def shellProgramUsed (env : Env) (host : Host) : Option String :=
  ((mainRun env host Action.shell []).invocations.headD []).getLast?

/-- Counts the flag/value pairs `flag v` with `v = target` among adjacent
token pairs of an argument list (e.g. volume-mount flags `-v spec`). -/
def countPair (flag target : String) : List String → Nat
  | [] => 0
  | [_] => 0
  | a :: b :: rest => (if a = flag ∧ b = target then 1 else 0) + countPair flag target (b :: rest)

/-- Tests whether a retry-trace event is an attempt (an external
invocation), as opposed to a sleep or a warning. -/
def isAttempt : Event → Bool
  | Event.attempt _ _ => true
  | _ => false

/-- An environment with no variable set. -/
def noneEnv : Env := fun _ => none

/-- A host with only `docker` on the search path, no SSH socket, no
`~/Projects` directory, home `/root`, cwd `/root`, all invocations
succeeding. -/
def dockerHost : Host :=
  ⟨fun c => c == "docker", fun _ => false, fun _ => false, "/root", "/root",
   fun _ => 0, fun _ _ => 0⟩

/-- A host with no runtime on the search path. -/
def bareHost : Host :=
  ⟨fun _ => false, fun _ => false, fun _ => false, "/root", "/root",
   fun _ => 0, fun _ _ => 0⟩

/-- A host with `docker` on the search path on which every external
invocation fails with exit code 1 (e.g. the named container is absent). -/
def failHost : Host :=
  ⟨fun c => c == "docker", fun _ => false, fun _ => false, "/root", "/root",
   fun _ => 1, fun _ _ => 1⟩

/-- An environment setting only the runtime override, to a non-empty
value naming no probed candidate. -/
def envOverride : Env := fun k => if k = "MACDROP_RUNTIME" then some "container2" else none

/-- An environment setting only the runtime override, to the empty string. -/
def envEmptyOverride : Env := fun k => if k = "MACDROP_RUNTIME" then some "" else none

/-- An environment setting only the cache-volume name, to the empty
string (disabling the cache-volume feature). -/
def envNoCache : Env := fun k => if k = "MACDROP_CACHEVOLUME" then some "" else none

/-- An environment setting only `SSH_AUTH_SOCK`, to `/tmp/agent.sock`. -/
def envSSH : Env := fun k => if k = "SSH_AUTH_SOCK" then some "/tmp/agent.sock" else none

/-- A host with `docker` on the search path on which exactly the path
`/tmp/agent.sock` exists. -/
def sshHost : Host :=
  ⟨fun c => c == "docker", fun p => p == "/tmp/agent.sock", fun _ => false, "/root", "/root",
   fun _ => 0, fun _ _ => 0⟩

/-- A host whose current working directory `/root/Projectsx` is a sibling
of the project root `/root/Projects`, not inside its subtree, yet has the
root as a string prefix. -/
def outsideHost : Host :=
  ⟨fun c => c == "docker", fun _ => false, fun _ => false, "/root", "/root/Projectsx",
   fun _ => 0, fun _ _ => 0⟩

/-- A host whose current working directory is the subdirectory `app` of
the project root `/root/Projects`. -/
def projHost : Host :=
  ⟨fun c => c == "docker", fun _ => false, fun _ => false, "/root", "/root/Projects/app",
   fun _ => 0, fun _ _ => 0⟩

/-- A host whose current working directory `/tmp` is unrelated to the
project root. -/
def elsewhereHost : Host :=
  ⟨fun c => c == "docker", fun _ => false, fun _ => false, "/root", "/tmp",
   fun _ => 0, fun _ _ => 0⟩

/-- Claim C1: runtime selection probes `container`, `docker`, `podman` in
that order and returns the first candidate present on the search path;
when none of the three is present and no override is set, `main` exits 1
with the diagnostic before issuing any invocation, for every action. -/
theorem runtime_probe_order_and_no_runtime_exit :
    (∀ which : String → Bool,
       find_runtime which = List.find? which ["container", "docker", "podman"])
    ∧ (∀ (env : Env) (host : Host) (action : Action) (args : List String),
         env "MACDROP_RUNTIME" = none →
         (∀ c, c ∈ (["container", "docker", "podman"] : List String) → host.which c = false) →
         mainRun env host action args = ⟨[], 1, ["Error: No container runtime found"]⟩) := by
  constructor
  · intro which
    by_cases h1 : which "container" = true <;> by_cases h2 : which "docker" = true <;>
      by_cases h3 : which "podman" = true <;>
      simp [find_runtime, List.find?, h1, h2, h3]
  · intro env host action args hnone hwhich
    have hc := hwhich "container" (by simp)
    have hd := hwhich "docker" (by simp)
    have hp := hwhich "podman" (by simp)
    simp [mainRun, selectRuntime, hnone, find_runtime, hc, hd, hp]

/-- Witness for C1: on a host with none of the three runtimes and no
override, `main` exits 1 with the diagnostic and issues nothing. -/
theorem runtime_probe_order_and_no_runtime_exit_witness :
    mainRun noneEnv bareHost Action.start [] = ⟨[], 1, ["Error: No container runtime found"]⟩ :=
  runtime_probe_order_and_no_runtime_exit.2 noneEnv bareHost Action.start [] rfl
    (fun _ _ => rfl)

/-- Claim C7: a set (non-empty) runtime override is used as the runtime,
taking precedence over probing, for every host whatever binaries are
present on its search path. -/
theorem override_precedence (env : Env) (host : Host) (v : String)
    (hset : env "MACDROP_RUNTIME" = some v) (hne : v ≠ "") :
    selectRuntime env host.which = some v ∧
    (mainRun env host Action.stop []).invocations = [[v, "rm", "-f", NAME env]] := by
  have hsel : selectRuntime env host.which = some v := by
    simp [selectRuntime, hset]
  refine ⟨hsel, ?_⟩
  simp [mainRun, hsel, hne, stop]

/-- Witness for C7: the override `container2` wins although only `docker`
is present on the search path. -/
theorem override_precedence_witness :
    selectRuntime envOverride dockerHost.which = some "container2" ∧
    (mainRun envOverride dockerHost Action.stop []).invocations
      = [["container2", "rm", "-f", "macdrop"]] := by
  have h := override_precedence envOverride dockerHost "container2" (by decide) (by decide)
  exact ⟨h.1, h.2.trans (by decide)⟩

/-- Claim C10: an override set to the empty string is fatal: exit 1 with
the no-runtime diagnostic and no invocation, with no fallback to probing,
whatever binaries are present and for every action. -/
theorem empty_override_fatal (env : Env) (host : Host) (action : Action) (args : List String)
    (h : env "MACDROP_RUNTIME" = some "") :
    mainRun env host action args = ⟨[], 1, ["Error: No container runtime found"]⟩ := by
  simp [mainRun, selectRuntime, h]

/-- Witness for C10: the empty override is fatal even though `docker` is
present on the search path. -/
theorem empty_override_fatal_witness :
    dockerHost.which "docker" = true ∧
    mainRun envEmptyOverride dockerHost Action.shell []
      = ⟨[], 1, ["Error: No container runtime found"]⟩ :=
  ⟨by decide, empty_override_fatal envEmptyOverride dockerHost Action.shell [] (by decide)⟩

/-- Claim C8: the stop action exits 0 in every case — the force-remove
invocation's exit code (e.g. failure because the container does not
exist) is ignored — and issues exactly the force-remove invocation. -/
theorem stop_always_exit_zero (env : Env) (host : Host) (args : List String) (rt : String)
    (hrt : selectRuntime env host.which = some rt) (hne : rt ≠ "") :
    (mainRun env host Action.stop args).exitCode = 0 ∧
    (mainRun env host Action.stop args).invocations = [[rt, "rm", "-f", NAME env]] := by
  simp [mainRun, hrt, hne, stop]

/-- The retry executor distributes over concatenation of command lists:
commands are processed strictly in order, independently of one another. -/
lemma run_append (exec : List String → Nat → Bool) (l₁ l₂ : List (List String))
    (retries delay : Nat) :
    run_commands_with_retry exec (l₁ ++ l₂) retries delay
      = run_commands_with_retry exec l₁ retries delay
        ++ run_commands_with_retry exec l₂ retries delay := by
  induction l₁ with
  | nil => simp [run_commands_with_retry]
  | cons c rest ih => simp [run_commands_with_retry, ih, List.append_assoc]

/-- The per-command retry loop on an always-failing command: attempts at
indices `i, i+1, ..., i+l`, a sleep between consecutive attempts, and a
final warning. -/
lemma tryLoop_all_fail (exec : Nat → Bool) (delay : Nat) (cmd : List String)
    (hfail : ∀ n, exec n = false) :
    ∀ l i : Nat,
      tryLoop exec delay cmd i (l + 1)
        = ((List.range' i l 1).flatMap fun j => [Event.attempt cmd j, Event.sleep delay])
          ++ [Event.attempt cmd (i + l), Event.warn cmd] := by
  intro l
  induction l with
  | zero => intro i; simp [tryLoop, hfail i]
  | succ k ih =>
    intro i
    have harith : i + 1 + k = i + (k + 1) := by omega
    simp [tryLoop, hfail i, List.range'_succ, ih (i + 1), harith, List.append_assoc]

/-- Each block of the expected failure trace contributes exactly one
attempt event. -/
lemma countP_attempt_blocks (cmd : List String) (delay : Nat) :
    ∀ n : Nat,
      ((List.range n).flatMap fun i => [Event.attempt cmd i, Event.sleep delay]).countP isAttempt
        = n := by
  intro n
  induction n with
  | zero => rfl
  | succ k ih =>
    rw [List.range_succ, List.flatMap_append, List.countP_append, ih]
    rfl

/-- Claim C5: on a command that fails on every attempt, the bounded-retry
executor attempts it exactly `retries + 1` times, with the configured
delay slept between consecutive attempts, then warns and continues with
the remaining commands; the surrounding commands are processed exactly as
if the failing command's failures had not occurred (no failure is
propagated out of the executor). -/
theorem retry_exhausts_then_continues (exec : List String → Nat → Bool) (retries delay : Nat)
    (pre post : List (List String)) (cmd : List String)
    (hfail : ∀ n, exec cmd n = false) :
    run_commands_with_retry exec (pre ++ cmd :: post) retries delay
      = run_commands_with_retry exec pre retries delay
        ++ (((List.range retries).flatMap fun i => [Event.attempt cmd i, Event.sleep delay])
            ++ [Event.attempt cmd retries, Event.warn cmd])
        ++ run_commands_with_retry exec post retries delay
    ∧ (((List.range retries).flatMap fun i => [Event.attempt cmd i, Event.sleep delay])
        ++ [Event.attempt cmd retries, Event.warn cmd]).countP isAttempt = retries + 1 := by
  constructor
  · rw [run_append, run_commands_with_retry,
        tryLoop_all_fail (exec cmd) delay cmd hfail retries 0, List.range_eq_range']
    simp [List.append_assoc]
  · rw [List.countP_append, countP_attempt_blocks]
    rfl

/-- Witness for C5: an always-failing command `svc` before a second
command, at the default two retries and delay one: three attempts with
sleeps in between, then the warning, then the next command's trace. -/
theorem retry_exhausts_then_continues_witness :
    run_commands_with_retry (fun _ _ => false) [["svc"], ["other"]] 2 1
      = [Event.attempt ["svc"] 0, Event.sleep 1, Event.attempt ["svc"] 1, Event.sleep 1,
         Event.attempt ["svc"] 2, Event.warn ["svc"],
         Event.attempt ["other"] 0, Event.sleep 1, Event.attempt ["other"] 1, Event.sleep 1,
         Event.attempt ["other"] 2, Event.warn ["other"]]
    ∧ (((List.range 2).flatMap fun i => [Event.attempt ["svc"] i, Event.sleep 1])
        ++ [Event.attempt ["svc"] 2, Event.warn ["svc"]]).countP isAttempt = 3 := by
  have h := retry_exhausts_then_continues (fun _ _ => false) 2 1 [] [["other"]] ["svc"]
    (fun _ => rfl)
  exact ⟨h.1.trans (by decide), h.2.trans (by decide)⟩

/-- Witness for C8: on a host where every invocation fails with exit 1
(the container does not exist), stop still exits 0. -/
theorem stop_always_exit_zero_witness :
    (mainRun noneEnv failHost Action.stop []).exitCode = 0 ∧
    (mainRun noneEnv failHost Action.stop []).invocations = [["docker", "rm", "-f", "macdrop"]] := by
  have h := stop_always_exit_zero noneEnv failHost [] "docker" (by decide) (by decide)
  exact ⟨h.1, h.2.trans (by decide)⟩

/-- Two strings with equal character data are equal. -/
lemma str_ext (s t : String) (h : s.data = t.data) : s = t := by
  cases s; cases t; exact congrArg String.mk h

/-- Reassociating the translated container path: the container root
followed by the remaining segments. -/
lemma cd_head (rest : String) : "/Projects" ++ ("/" ++ rest) = "/Projects/" ++ rest := by
  apply str_ext
  simp only [String.data_append]
  rw [← List.append_assoc]
  congr 1

/-- Claim C2 counterexample: with home `/root`, the working directory
`/root/Projectsx` is not under the project root `/root/Projects`, yet
`l3d` does not exit 1 and issues a container invocation (the string-prefix
test accepts it), delegating with the mistranslated path `/Projectsx`. -/
theorem l3d_outside_counterexample :
    underDir "/root/Projects" "/root/Projectsx" = false ∧
    outsideHost.home = "/root" ∧ outsideHost.cwd = "/root/Projectsx" ∧
    (mainRun noneEnv outsideHost Action.l3d []).exitCode = 0 ∧
    (mainRun noneEnv outsideHost Action.l3d []).invocations
      = [["docker", "exec", "-it", "macdrop", "/bin/sh", "-c",
          "cd \x27/Projectsx\x27 && l3d"]] := by
  decide

/-- Claim C2 as amended: for every invocation of the l3d action from a
working directory that does not have the expanded `~/Projects` as a
string prefix, the program exits 1 after printing the diagnostic and
issues no container invocation. -/
theorem l3d_outside_prefix_exit (env : Env) (host : Host) (args : List String) (rt : String)
    (hrt : selectRuntime env host.which = some rt) (hne : rt ≠ "")
    (hcwd : startswith host.cwd (host.home ++ "/Projects") = false) :
    mainRun env host Action.l3d args
      = ⟨[], 1, ["Error: You must run this command inside a project under ~/Projects."]⟩ := by
  simp [mainRun, hrt, hne, l3d, hcwd]

/-- Witness for the amended C2: from `/tmp` the l3d action exits 1 with
the diagnostic and issues nothing. -/
theorem l3d_outside_prefix_exit_witness :
    mainRun noneEnv elsewhereHost Action.l3d ["up"]
      = ⟨[], 1, ["Error: You must run this command inside a project under ~/Projects."]⟩ :=
  l3d_outside_prefix_exit noneEnv elsewhereHost ["up"] "docker" (by decide) (by decide)
    (by decide)

/-- Claim C6: from a working directory `root ++ "/" ++ rest` under the
project root, l3d issues exactly one invocation, whose composed shell
command changes into `/Projects/` followed by the remaining path segments
unchanged, runs the fixed tool `l3d`, and appends the user arguments
space-joined when present. -/
theorem l3d_translates_path (env : Env) (host : Host) (args : List String) (rt rest : String)
    (hrt : selectRuntime env host.which = some rt) (hne : rt ≠ "")
    (hcwd : host.cwd = (host.home ++ "/Projects") ++ ("/" ++ rest)) :
    (mainRun env host Action.l3d args).invocations
      = [[rt, "exec", "-it", NAME env, "/bin/sh", "-c",
          (let base := "cd \x27" ++ ("/Projects/" ++ rest) ++ "\x27 && l3d"
           if args.isEmpty then base
           else base ++ " " ++ String.intercalate " " args)]] := by
  have hstart : startswith host.cwd (host.home ++ "/Projects") = true := by
    rw [hcwd]
    unfold startswith
    rw [List.isPrefixOf_iff_prefix, String.data_append]
    exact List.prefix_append _ _
  have hdrop : pyDrop host.cwd (pyLen (host.home ++ "/Projects")) = "/" ++ rest := by
    apply str_ext
    rw [hcwd]
    show ((host.home ++ "/Projects") ++ ("/" ++ rest)).data.drop
        (host.home ++ "/Projects").data.length = ("/" ++ rest).data
    simp only [String.data_append]
    rw [List.drop_left]
  have hdir : "/Projects" ++ pyDrop host.cwd (pyLen (host.home ++ "/Projects"))
      = "/Projects/" ++ rest := by
    rw [hdrop]
    exact cd_head rest
  simp [mainRun, hrt, hne, l3d, hstart, hdir, shell]

/-- Witness for C6: from `/root/Projects/app` with arguments `up -d`, the
composed command is `cd /Projects/app && l3d up -d` (single-quoted path). -/
theorem l3d_translates_path_witness :
    (mainRun noneEnv projHost Action.l3d ["up", "-d"]).invocations
      = [["docker", "exec", "-it", "macdrop", "/bin/sh", "-c",
          "cd \x27/Projects/app\x27 && l3d up -d"]] := by
  have h := l3d_translates_path noneEnv projHost ["up", "-d"] "docker" "app"
    (by decide) (by decide) (by decide)
  exact h.trans (by decide)

/-- Claim C9 counterexample (negation of the claim): there is no
environment variable whose value determines the program the shell action
executes inside the container — setting any variable to `zsh` still
leaves the executed shell program `sh`. -/
theorem shell_program_not_env_configurable :
    ¬ ∃ key : String, ∀ (env : Env) (host : Host) (v : String),
        shellProgramUsed (Function.update env key (some v)) host = some v := by
  rintro ⟨key, h⟩
  have h2 := h noneEnv dockerHost "zsh"
  have h3 : shellProgramUsed (Function.update noneEnv key (some "zsh")) dockerHost
      = some "sh" := by
    by_cases hk : ("MACDROP_RUNTIME" : String) = key
    · subst hk
      decide
    · simp +decide [shellProgramUsed, mainRun, selectRuntime, Function.update, hk,
        find_runtime, dockerHost, shell, noneEnv]
  have h4 := h3.symm.trans h2
  exact (by decide : ("sh" : String) ≠ "zsh") (Option.some.inj h4)

/-- Claim C9 as amended: the shell action's program is the literal `sh`
passed by `main`; it is identical for every environment (no environment
variable configures it). -/
theorem shell_program_fixed_sh (env : Env) (host : Host) (args : List String) (rt : String)
    (hrt : selectRuntime env host.which = some rt) (hne : rt ≠ "") :
    (mainRun env host Action.shell args).invocations = [[rt, "exec", "-it", NAME env, "sh"]] := by
  simp [mainRun, hrt, hne, shell]

/-- Witness for the amended C9: with no variable set, the shell action
execs `sh` in the container. -/
theorem shell_program_fixed_sh_witness :
    (mainRun noneEnv dockerHost Action.shell []).invocations
      = [["docker", "exec", "-it", "macdrop", "sh"]] := by
  have h := shell_program_fixed_sh noneEnv dockerHost [] "docker" (by decide) (by decide)
  exact h.trans (by decide)

/-- A string with an appended suffix differs from any string whose last
character differs from the suffix's last character. -/
lemma append_ne_of_last (s u v : String) (c d : Char)
    (hu : u.data.getLast? = some c) (hv : v.data.getLast? = some d) (hcd : c ≠ d) :
    s ++ u ≠ v := by
  intro he
  have hdata : (s ++ u).data = v.data := congrArg String.data he
  rw [String.data_append] at hdata
  have h1 : (s.data ++ u.data).getLast? = some c := by
    rw [List.getLast?_append, hu]
    rfl
  rw [hdata, hv] at h1
  exact hcd (Option.some.inj h1).symm

/-- Strings with appended suffixes whose last characters differ are
distinct. -/
lemma append_ne_append_of_last (s t u v : String) (c d : Char)
    (hu : u.data.getLast? = some c) (hv : v.data.getLast? = some d) (hcd : c ≠ d) :
    s ++ u ≠ t ++ v := by
  intro he
  have hdata := congrArg String.data he
  rw [String.data_append, String.data_append] at hdata
  have h1 : (s.data ++ u.data).getLast? = some c := by
    rw [List.getLast?_append, hu]
    rfl
  have h2 : (t.data ++ v.data).getLast? = some d := by
    rw [List.getLast?_append, hv]
    rfl
  rw [hdata, h2] at h1
  exact hcd (Option.some.inj h1).symm

/-- An SSH-socket mount spec is never the token `-v`. -/
lemma sock_ne_v (s : String) : s ++ ":/ssh-agent" ≠ "-v" :=
  append_ne_of_last s ":/ssh-agent" "-v" 't' 'v' (by decide) (by decide) (by decide)

/-- An SSH-socket mount spec is never the token `-e`. -/
lemma sock_ne_e (s : String) : s ++ ":/ssh-agent" ≠ "-e" :=
  append_ne_of_last s ":/ssh-agent" "-e" 't' 'e' (by decide) (by decide) (by decide)

/-- A projects mount spec is never the token `-v`. -/
lemma home_ne_v (s : String) : s ++ ":/Projects" ≠ "-v" :=
  append_ne_of_last s ":/Projects" "-v" 's' 'v' (by decide) (by decide) (by decide)

/-- A projects mount spec is never the token `-e`. -/
lemma home_ne_e (s : String) : s ++ ":/Projects" ≠ "-e" :=
  append_ne_of_last s ":/Projects" "-e" 's' 'e' (by decide) (by decide) (by decide)

/-- A cache-volume mount spec is never the token `-v`. -/
lemma cache_ne_v (s : String) : s ++ ":/var/lib/docker" ≠ "-v" :=
  append_ne_of_last s ":/var/lib/docker" "-v" 'r' 'v' (by decide) (by decide) (by decide)

/-- A cache-volume mount spec is never the token `-e`. -/
lemma cache_ne_e (s : String) : s ++ ":/var/lib/docker" ≠ "-e" :=
  append_ne_of_last s ":/var/lib/docker" "-e" 'r' 'e' (by decide) (by decide) (by decide)

/-- An SSH-socket mount spec is never a cache-volume mount spec. -/
lemma sock_ne_cache (s t : String) : s ++ ":/ssh-agent" ≠ t ++ ":/var/lib/docker" :=
  append_ne_append_of_last s t ":/ssh-agent" ":/var/lib/docker" 't' 'r'
    (by decide) (by decide) (by decide)

/-- A projects mount spec is never a cache-volume mount spec. -/
lemma home_ne_cache (s t : String) : s ++ ":/Projects" ≠ t ++ ":/var/lib/docker" :=
  append_ne_append_of_last s t ":/Projects" ":/var/lib/docker" 's' 'r'
    (by decide) (by decide) (by decide)

/-- A projects mount spec is never an SSH-socket mount spec. -/
lemma home_ne_sock (s t : String) : s ++ ":/Projects" ≠ t ++ ":/ssh-agent" :=
  append_ne_append_of_last s t ":/Projects" ":/ssh-agent" 's' 't'
    (by decide) (by decide) (by decide)

/-- A cache-volume mount spec is never an SSH-socket mount spec. -/
lemma cache_ne_sock (s t : String) : s ++ ":/var/lib/docker" ≠ t ++ ":/ssh-agent" :=
  append_ne_append_of_last s t ":/var/lib/docker" ":/ssh-agent" 'r' 't'
    (by decide) (by decide) (by decide)

/-- An SSH-socket mount spec is never the bare cache mount suffix. -/
lemma sock_ne_cachelit (s : String) : s ++ ":/ssh-agent" ≠ ":/var/lib/docker" :=
  append_ne_of_last s ":/ssh-agent" ":/var/lib/docker" 't' 'r'
    (by decide) (by decide) (by decide)

/-- A projects mount spec is never the bare cache mount suffix. -/
lemma home_ne_cachelit (s : String) : s ++ ":/Projects" ≠ ":/var/lib/docker" :=
  append_ne_of_last s ":/Projects" ":/var/lib/docker" 's' 'r'
    (by decide) (by decide) (by decide)

/-- The token `run` is never a cache-volume mount spec. -/
lemma run_ne_cache (t : String) : ("run" : String) ≠ t ++ ":/var/lib/docker" :=
  (append_ne_of_last t ":/var/lib/docker" "run" 'r' 'n'
    (by decide) (by decide) (by decide)).symm

/-- The token `run` is never an SSH-socket mount spec. -/
lemma run_ne_sock (t : String) : ("run" : String) ≠ t ++ ":/ssh-agent" :=
  (append_ne_of_last t ":/ssh-agent" "run" 't' 'n'
    (by decide) (by decide) (by decide)).symm

/-- A non-empty string has positive length. -/
lemma pyLen_pos (s : String) (h : s ≠ "") : 0 < pyLen s := by
  rcases s with ⟨d⟩
  cases d with
  | nil => exact absurd rfl h
  | cons a l => simp [pyLen]

/-- Prepending the empty string is the identity. -/
lemma str_empty_append (s : String) : "" ++ s = s := by
  apply str_ext
  have h0 : ("" : String).data = ([] : List Char) := by decide
  rw [String.data_append, h0, List.nil_append]

/-- Claim C3: when the cache-volume name is empty, no `volume create`
side invocation is issued and the creation command carries no volume-mount
flag referencing the cache volume; when it is non-empty, exactly one such
mount flag is present and the `volume create` invocation is issued before
the creation invocation in the start trace.  The hypotheses only rule out
configurations whose name/platform/port values are the literal flag token
`-v`. -/
theorem cache_volume_mount (env : Env) (host : Host) (rt : String)
    (h1 : NAME env ≠ "-v") (h2 : PLATFORM env ≠ "-v") (h3 : PORT env ≠ "-v") :
    (CACHEVOLUME env = "" →
       (base_run_command env host rt).pre = [] ∧
       countPair "-v" (CACHEVOLUME env ++ ":/var/lib/docker") (base_run_command env host rt).cmd
         = 0)
    ∧ (CACHEVOLUME env ≠ "" →
       (base_run_command env host rt).pre = [[rt, "volume", "create", CACHEVOLUME env]] ∧
       countPair "-v" (CACHEVOLUME env ++ ":/var/lib/docker") (base_run_command env host rt).cmd
         = 1 ∧
       (start env host rt).invocations.take 2
         = [[rt, "volume", "create", CACHEVOLUME env],
            (base_run_command env host rt).cmd ++ [IMAGE env]]) := by
  constructor
  · intro hc
    have hlen : ¬ 0 < pyLen (CACHEVOLUME env) := by
      rw [hc]
      decide
    have hc2 : CACHEVOLUME env ++ ":/var/lib/docker" = ":/var/lib/docker" := by
      rw [hc]
      exact str_empty_append _
    rw [hc2]
    rcases henv : env "SSH_AUTH_SOCK" with _ | s <;>
      simp only [base_run_command, henv] <;>
      split_ifs <;>
      simp_all +decide [countPair, sock_ne_v, home_ne_v, sock_ne_cachelit, home_ne_cachelit]
  · intro hc
    have hlen : 0 < pyLen (CACHEVOLUME env) := pyLen_pos _ hc
    have hpre : (base_run_command env host rt).pre = [[rt, "volume", "create", CACHEVOLUME env]] := by
      simp [base_run_command, hlen]
    refine ⟨hpre, ?_, ?_⟩
    · rcases henv : env "SSH_AUTH_SOCK" with _ | s <;>
        simp only [base_run_command, henv] <;>
        split_ifs <;>
        simp_all +decide [countPair, sock_ne_v, home_ne_v, cache_ne_v, sock_ne_cache,
          home_ne_cache, run_ne_cache]
    · by_cases hrun : host.run ((base_run_command env host rt).cmd ++ [IMAGE env]) ≠ 0
      · simp [start, hpre, hrun, List.take]
      · simp [start, hpre, hrun, List.take]
        split_ifs <;> simp

/-- Witness for C3: at the default cache-volume name `macdropcache` the
`volume create` side invocation is present and exactly one mount flag
occurs; with the name set to the empty string neither appears. -/
theorem cache_volume_mount_witness :
    (base_run_command noneEnv dockerHost "docker").pre
      = [["docker", "volume", "create", "macdropcache"]] ∧
    countPair "-v" "macdropcache:/var/lib/docker" (base_run_command noneEnv dockerHost "docker").cmd
      = 1 ∧
    (base_run_command envNoCache dockerHost "docker").pre = [] ∧
    countPair "-v" ":/var/lib/docker" (base_run_command envNoCache dockerHost "docker").cmd = 0 := by
  have hpos := (cache_volume_mount noneEnv dockerHost "docker"
    (by decide) (by decide) (by decide)).2 (by decide)
  have hneg := (cache_volume_mount envNoCache dockerHost "docker"
    (by decide) (by decide) (by decide)).1 (by decide)
  exact ⟨hpos.1.trans (by decide), hpos.2.1.trans (by decide),
    hneg.1, hneg.2.trans (by decide)⟩

/-- The SSH env-variable flag and socket bind-mount flag occur adjacent,
as one four-token segment of the creation command, whenever
`SSH_AUTH_SOCK` is set to a non-empty path that exists. -/
lemma ssh_segment_split (env : Env) (host : Host) (rt s : String)
    (hs : env "SSH_AUTH_SOCK" = some s) (hne : s ≠ "") (hex : host.pathExists s = true) :
    (base_run_command env host rt).cmd
      = (if rt = "docker" ∨ rt = "podman" then
           [rt, "run", "-d", "--name", NAME env, "--platform", PLATFORM env, "-p", PORT env,
            "--privileged"]
         else
           [rt, "run", "-d", "--name", NAME env, "--platform", PLATFORM env, "-p", PORT env])
        ++ ["-e", "SSH_AUTH_SOCK=/ssh-agent", "-v", s ++ ":/ssh-agent"]
        ++ ((if host.isDir (host.home ++ "/Projects") then
               ["-v", (host.home ++ "/Projects") ++ ":/Projects", "-w", "/Projects"]
             else [])
            ++ (if 0 < pyLen (CACHEVOLUME env) then
                  ["-v", CACHEVOLUME env ++ ":/var/lib/docker"]
                else [])) := by
  simp only [base_run_command, hs]
  split_ifs <;>
    first
    | exact absurd (show s ≠ "" ∧ host.pathExists s = true from ⟨hne, hex⟩) (by assumption)
    | simp [List.append_assoc]

/-- Claim C4: when the SSH agent socket path does not exist on the host
(or `SSH_AUTH_SOCK` is unset or empty), the creation command contains
neither the env-variable flag `-e SSH_AUTH_SOCK=/ssh-agent` nor the
socket bind-mount flag; when the path exists and the variable is
non-empty, both flags occur exactly once and adjacent, as the
four-token segment `-e SSH_AUTH_SOCK=/ssh-agent -v <sock>:/ssh-agent`.
The hypotheses only rule out configurations whose name/platform/port
values are the literal flag tokens `-v` or `-e`. -/
theorem ssh_agent_flags (env : Env) (host : Host) (rt : String)
    (h1v : NAME env ≠ "-v") (h1e : NAME env ≠ "-e")
    (h2v : PLATFORM env ≠ "-v") (h2e : PLATFORM env ≠ "-e")
    (h3v : PORT env ≠ "-v") (h3e : PORT env ≠ "-e") :
    ((∀ s, env "SSH_AUTH_SOCK" = some s → s = "" ∨ host.pathExists s = false) →
       countPair "-e" "SSH_AUTH_SOCK=/ssh-agent" (base_run_command env host rt).cmd = 0 ∧
       ∀ s, env "SSH_AUTH_SOCK" = some s →
         countPair "-v" (s ++ ":/ssh-agent") (base_run_command env host rt).cmd = 0)
    ∧ (∀ s, env "SSH_AUTH_SOCK" = some s → s ≠ "" → host.pathExists s = true →
       countPair "-e" "SSH_AUTH_SOCK=/ssh-agent" (base_run_command env host rt).cmd = 1 ∧
       countPair "-v" (s ++ ":/ssh-agent") (base_run_command env host rt).cmd = 1 ∧
       ["-e", "SSH_AUTH_SOCK=/ssh-agent", "-v", s ++ ":/ssh-agent"].IsInfix
         (base_run_command env host rt).cmd) := by
  constructor
  · intro hno
    constructor
    · rcases henv : env "SSH_AUTH_SOCK" with _ | s
      · simp only [base_run_command, henv]
        split_ifs <;>
          simp_all +decide [countPair, home_ne_e, cache_ne_e]
      · have hcond : ¬(s ≠ "" ∧ host.pathExists s = true) := by
          rcases hno s henv with h | h
          · exact fun hx => hx.1 h
          · exact fun hx => by simp [h] at hx
        simp only [base_run_command, henv]
        split_ifs <;>
          simp_all +decide [countPair, home_ne_e, cache_ne_e]
    · intro s hs
      have hcond : ¬(s ≠ "" ∧ host.pathExists s = true) := by
        rcases hno s hs with h | h
        · exact fun hx => hx.1 h
        · exact fun hx => by simp [h] at hx
      simp only [base_run_command, hs]
      split_ifs <;>
        simp_all +decide [countPair, home_ne_sock, cache_ne_sock, home_ne_v, cache_ne_v,
          run_ne_sock]
  · intro s hs hne hex
    have hsplit := ssh_segment_split env host rt s hs hne hex
    refine ⟨?_, ?_, ?_⟩
    · rw [hsplit]
      split_ifs <;>
        simp +decide [countPair, h1e, h2e, h3e, sock_ne_e, home_ne_e, cache_ne_e]
    · rw [hsplit]
      split_ifs <;>
        simp +decide [countPair, h1v, h2v, h3v, sock_ne_v, home_ne_v, cache_ne_v,
          home_ne_sock, cache_ne_sock, run_ne_sock]
    · exact ⟨_, _, hsplit.symm⟩

/-- Witness for C4: with `SSH_AUTH_SOCK=/tmp/agent.sock` existing, both
flags occur once; on a host where the path does not exist, the
env-variable flag is absent. -/
theorem ssh_agent_flags_witness :
    countPair "-e" "SSH_AUTH_SOCK=/ssh-agent" (base_run_command envSSH sshHost "docker").cmd = 1 ∧
    countPair "-v" "/tmp/agent.sock:/ssh-agent" (base_run_command envSSH sshHost "docker").cmd = 1 ∧
    countPair "-e" "SSH_AUTH_SOCK=/ssh-agent" (base_run_command envSSH dockerHost "docker").cmd
      = 0 := by
  have hp := (ssh_agent_flags envSSH sshHost "docker" (by decide) (by decide) (by decide)
    (by decide) (by decide) (by decide)).2 "/tmp/agent.sock" (by decide) (by decide) (by decide)
  have ha := (ssh_agent_flags envSSH dockerHost "docker" (by decide) (by decide) (by decide)
    (by decide) (by decide) (by decide)).1 (fun s _ => Or.inr rfl)
  exact ⟨hp.1, hp.2.1, ha.1⟩

end Macdrop
